import Mathlib

/-!
Verification of the smart-research-assistant repository against its
natural-language specification.

The development shallowly embeds the Python sources:
  * `src/document_processor.py` — text extraction and content validation;
  * `src/ai_assistant.py`       — prompt construction and response parsing
                                  around an opaque remote model;
  * `src/utils.py`              — `clear_session_state`;
  * `src/app.py`                — the Streamlit session orchestrator.

External collaborators (the remote model, the byte-decoding library for
utf-8/utf-16/cp1252) are universally quantified capabilities; everything
else is translated from the source.  Python exceptions become `Except` /
`Option` values; Streamlit's `st.session_state` becomes an explicit
`Session` record (deleting a key in Streamlit makes the top-of-script
initializers restore its default on the next rerun, so a deleted key is
modelled as the field reset to its default).  JSON numbers are modelled
as integers; no claim under consideration involves float values.
-/

/-! ### Python string primitives -/

/-- Python's `str` whitespace on the ASCII range, as used by `str.strip()`
and `str.split()` (space, tab, newline, carriage return, vertical tab,
form feed). -/
def pyIsSpace (c : Char) : Bool :=
  c = ' ' || c = '\t' || c = '\n' || c = '\r' || c = Char.ofNat 11 || c = Char.ofNat 12

/-- Python `s.strip()`: drop leading and trailing whitespace. -/
def pyStrip (s : String) : String :=
  String.mk (((s.data.dropWhile pyIsSpace).reverse.dropWhile pyIsSpace).reverse)

/-- Scanner for Python `s.split()` with no separator: `cur` holds the
reversed characters of the word being read; whitespace closes the word
(empty runs produce nothing). -/
def wordsAux : List Char → List Char → List (List Char)
  | [], cur => if cur.isEmpty then [] else [cur.reverse]
  | c :: rest, cur =>
    if pyIsSpace c then
      if cur.isEmpty then wordsAux rest [] else cur.reverse :: wordsAux rest []
    else wordsAux rest (c :: cur)

/-- Python `s.split()` with no separator: maximal runs of non-whitespace. -/
def pySplitWs (s : String) : List String :=
  (wordsAux s.data []).map String.mk

/-- Python slice `s[:n]` on a `str` (first `n` code points). -/
def pySliceTo (s : String) (n : Nat) : String :=
  String.mk (s.data.take n)

/-! ### `DocumentProcessor.validate_document_content` (src/document_processor.py) -/

/-- `validate_document_content`: reject falsy or short stripped text, then
reject low word count, else accept. -/
def validate_document_content (text : String) : Bool :=
  if text.isEmpty || (pyStrip text).length < 100 then
    false
  else if (pySplitWs text).length < 50 then
    false
  else
    true

/-! ### `DocumentProcessor._extract_txt_text` (src/document_processor.py)

The candidate encodings are tried in order `utf-8, utf-16, latin-1,
cp1252`.  The decoders for utf-8, utf-16 and cp1252 belong to the Python
standard library (an external collaborator per the spec) and are taken as
arbitrary functions returning `none` exactly when `bytes.decode` raises
`UnicodeDecodeError`; latin-1 is implemented, since its behaviour (every
byte `b` decodes to the code point `b`) decides the claim about the
decode-failure branch. -/

abbrev Byte := Fin 256

/-- latin-1 ("iso-8859-1") decoding: byte `b` becomes code point `b`.
Total: every byte sequence decodes. -/
def decodeLatin1 (bs : List Byte) : String :=
  String.mk (bs.map (fun b => Char.ofNat b.val))

/-- Failure modes of `_extract_txt_text`: the "appears to be empty" raise
and the "Unable to decode text file" raise (both reach the caller wrapped
in a "TXT extraction failed:" message, which does not change their kind). -/
inductive TxtErr where
  | emptyFile
  | decodeFailure
deriving DecidableEq, Repr

/-- The `for encoding in encodings` loop body: a `UnicodeDecodeError`
(`none`) moves to the next encoding; a successful decode either raises
"empty" (whitespace-only content, an exception that is not caught by the
inner `except UnicodeDecodeError` and so escapes the loop) or returns the
stripped content; exhausting the list raises "Unable to decode". -/
def tryDecoders : List (List Byte → Option String) → List Byte → Except TxtErr String
  | [], _ => .error .decodeFailure
  | d :: rest, bs =>
    match d bs with
    | none => tryDecoders rest bs
    | some t => if (pyStrip t).isEmpty then .error .emptyFile else .ok (pyStrip t)

/-- `_extract_txt_text`, with the three library decoders abstract and
latin-1 concrete, in source order. -/
def extract_txt_text (utf8Dec utf16Dec cp1252Dec : List Byte → Option String)
    (bs : List Byte) : Except TxtErr String :=
  tryDecoders [utf8Dec, utf16Dec, fun b => some (decodeLatin1 b), cp1252Dec] bs

/-! ### JSON values and the remote-model boundary

`json.loads` applied to the model's reply yields a Python value; `JValue`
is its shape (numbers as integers — see the header note).  A reply from
the remote model either fails in transport (the API call raises) or
carries content; for the JSON-mode calls the content is modelled already
parsed, `none` standing for content that is not valid JSON (where
`json.loads` raises). -/

inductive JValue where
  | null
  | bool (b : Bool)
  | int (n : Int)
  | str (s : String)
  | arr (xs : List JValue)
  | obj (fields : List (String × JValue))
deriving Repr

/-- Lookup in a parsed JSON object (`dict[key]` / `dict.get(key)`):
`json.loads` keeps the last occurrence of a duplicated key, so later
fields win. -/
def jGet : List (String × JValue) → String → Option JValue
  | [], _ => none
  | (k, v) :: rest, key =>
    match jGet rest key with
    | some w => some w
    | none => if k = key then some v else none

/-- Python `obj[key]` on a parsed JSON value: only a dict has items; on
any other value the subscript raises (and a dict without the key raises
`KeyError`), both modelled as `none`. -/
def JValue.getKey : JValue → String → Option JValue
  | .obj fields, key => jGet fields key
  | _, _ => none

/-- Reply of the remote model on a JSON-mode call. -/
inductive ModelReply where
  | transportFail
  | content (parsed : Option JValue)

/-- Reply of the remote model on the free-text (summary) call. -/
inductive TextReply where
  | transportFail
  | content (s : String)

/-- Error kinds of the spec's taxonomy for the model-facing operations.
The source raises a single generic `Exception` with a stage message; the
kind records the cause: a transport failure is `ModelError`, a reply that
fails JSON parsing or lacks a required key is `MalformedResponse`. -/
inductive AIErr where
  | modelError
  | malformedResponse
deriving DecidableEq, Repr

/-! ### Python `str()` of a parsed JSON value

`answer_question` interpolates `qa['answer']` into an f-string, which
applies `str()`; the stored answer is whatever JSON value the model
returned, so rendering must be defined on all of `JValue`.  `repr` of a
Python string is approximated as simple single-quoting (no claim depends
on repr's escaping of quotes inside elements of nested collections). -/

mutual

def pyRepr : JValue → String
  | .null => "None"
  | .bool b => if b then "True" else "False"
  | .int n => toString n
  | .str s => "'" ++ s ++ "'"
  | .arr xs => "[" ++ pyReprList xs ++ "]"
  | .obj fields => "\x7b" ++ pyReprFields fields ++ "\x7d"

def pyReprList : List JValue → String
  | [] => ""
  | [x] => pyRepr x
  | x :: y :: rest => pyRepr x ++ ", " ++ pyReprList (y :: rest)

def pyReprFields : List (String × JValue) → String
  | [] => ""
  | [(k, v)] => "'" ++ k ++ "': " ++ pyRepr v
  | (k, v) :: f :: rest => "'" ++ k ++ "': " ++ pyRepr v ++ ", " ++ pyReprFields (f :: rest)

end

/-- Python `str()`: a string renders as itself, every other value by its
repr. -/
def pyStr : JValue → String
  | .str s => s
  | v => pyRepr v

/-! ### `AIAssistant.generate_summary` (src/ai_assistant.py) -/

/-- The summary prompt f-string, literally (the trailing source comment
`# Truncate for API limits` sits inside the triple-quoted string and is
part of the prompt).  The document is interpolated as `document_text[:8000]`. -/
def summary_prompt (document_text : String) : String :=
  "\n            Please provide a concise summary of the following document in no more than 150 words.\n            Focus on the main themes, key arguments, and important findings.\n            Make the summary informative and well-structured.\n            \n            Document content:\n            "
    ++ pySliceTo document_text 8000
    ++ "  # Truncate for API limits\n            "

/-- `generate_summary`: sends `summary_prompt document_text`; a transport
failure raises (`ModelError` in the spec's taxonomy, the source wraps it
as "Failed to generate summary: ..."); otherwise the reply content is
returned stripped, whatever it is. -/
def generate_summary (reply : TextReply) (document_text : String) : Except AIErr String :=
  match reply with
  | .transportFail => .error .modelError
  | .content s =>
    let _prompt := summary_prompt document_text
    .ok (pyStrip s)

/-! ### `AIAssistant.answer_question` (src/ai_assistant.py) -/

/-- One entry of `st.session_state.qa_history`: the dict
`{"question": ..., "answer": ..., "citation": ...}` built in `app.py`.
The question is the user's input string; answer and citation are whatever
JSON values the model's reply carried under those keys. -/
structure QAEntry where
  question : String
  answer : JValue
  citation : JValue

/-- The `context` variable: empty for an empty (or absent) history,
otherwise a header line followed by a `Q:`/`A:` rendering of
`conversation_history[-3:]` (Python `xs[-3:]` is `drop (length - 3)`,
the whole list when shorter than 3). -/
def contextOf (history : List QAEntry) : String :=
  if history.isEmpty then ""
  else
    (history.drop (history.length - 3)).foldl
      (fun acc qa => acc ++ "Q: " ++ qa.question ++ "\nA: " ++ pyStr qa.answer ++ "\n\n")
      "Previous conversation:\n"

/-- The answer prompt f-string, literally, with `contextOf history`
interpolated at `{context}`, the full document at `{document_text}` and
the user question at `{question}`. -/
def answer_prompt (question document_text : String) (history : List QAEntry) : String :=
  "\n            You are an expert document analyst. Answer the user's question based ONLY on the provided document content.\n            \n            Important guidelines:\n            1. Base your answer strictly on the document content provided\n            2. Do not add information from your general knowledge\n            3. If the answer cannot be found in the document, clearly state this\n            4. Provide specific references to support your answer\n            5. Be thorough but concise\n            \n            "
    ++ contextOf history
    ++ "\n            \n            Document content:\n            "
    ++ document_text
    ++ "\n            \n            User question: "
    ++ question
    ++ "\n            \n            Please respond in JSON format with the following structure:\n            \x7b\n                \"answer\": \"Your detailed answer based on the document\",\n                \"citation\": \"Specific reference to the document section/paragraph that supports this answer\",\n                \"confidence\": \"high/medium/low based on how directly the document addresses the question\"\n            \x7d\n            "

/-- `answer_question` up to its return: sends `answer_prompt`, then
`json.loads` the reply.  A transport failure raises inside the remote
call (`ModelError`); content that is not valid JSON makes `json.loads`
raise (`MalformedResponse`); otherwise the parsed value is returned as is
— the source performs no key validation here. -/
def answer_question (reply : ModelReply) (question document_text : String)
    (history : List QAEntry) : Except AIErr JValue :=
  match reply with
  | .transportFail => .error .modelError
  | .content none => .error .malformedResponse
  | .content (some j) =>
    let _prompt := answer_prompt question document_text history
    .ok j

/-! ### `AIAssistant.extract_relevant_passages` (src/ai_assistant.py) -/

/-- Python `s.split('\n\n')`: leftmost non-overlapping occurrences of the
two-character separator cut the character list (so `"a\n\n\n\nb"` splits
into `a`, the empty piece, `b`, exactly as in Python). -/
def splitTwoNL : List Char → List (List Char)
  | '\n' :: '\n' :: rest => [] :: splitTwoNL rest
  | c :: rest =>
    match splitTwoNL rest with
    | [] => [[c]]
    | w :: ws => (c :: w) :: ws
  | [] => [[]]

/-- The chunk list: split on the literal separator `"\n\n"`, strip each
piece, keep those of stripped length `> 50`. -/
def chunksOf (document_text : String) : List String :=
  ((splitTwoNL document_text.data).map (fun cs => pyStrip (String.mk cs))).filter
    (fun c => 50 < c.length)

/-- Python `xs[i]` for an `int` index: non-negative indices index from the
front, indices in `[-len, 0)` from the back, anything else raises
`IndexError` (`none`). -/
def pyIndex (xs : List String) (i : Int) : Option String :=
  if 0 ≤ i then xs.get? i.toNat
  else if (xs.length : Int) + i < 0 then none
  else xs.get? ((xs.length : Int) + i).toNat

/-- The elements of the decoded `relevant_chunk_indices` value as Python
ints.  A JSON boolean is an `int` in Python (`True` indexes as `1`), so
it participates; any other element type makes the comprehension raise a
`TypeError` when compared with `len(chunks)` or used as an index
(`none`). -/
def intElems : List JValue → Option (List Int)
  | [] => some []
  | .int n :: rest =>
    match intElems rest with
    | some ns => some (n :: ns)
    | none => none
  | .bool b :: rest =>
    match intElems rest with
    | some ns => some ((if b then 1 else 0) :: ns)
    | none => none
  | _ :: _ => none

/-- The `relevant_chunk_indices` value as an int list: anything that is
not a JSON array of numbers/booleans raises when iterated or compared
(`none`). -/
def asIntList : JValue → Option (List Int)
  | .arr xs => intElems xs
  | _ => none

/-- The comprehension `[chunks[i] for i in indices if i < len(chunks)]`:
indices `≥ len(chunks)` are filtered out; a surviving index is resolved
by Python indexing, and an `IndexError` (index `< -len(chunks)`) aborts
the whole comprehension (`none`, which lands in the `except` fallback). -/
def rankedSelect (chunks : List String) : List Int → Option (List String)
  | [] => some []
  | i :: rest =>
    if i < (chunks.length : Int) then
      match pyIndex chunks i with
      | none => none
      | some c =>
        match rankedSelect chunks rest with
        | some cs => some (c :: cs)
        | none => none
    else rankedSelect chunks rest

/-- The remainder of the try-block after the early return: transport
failure, unparseable content, `.get` on a non-dict (`AttributeError`) and
a non-list indices value (`TypeError`) raise (`none`, landing in the
catch-all `except`); a missing `relevant_chunk_indices` key takes the
`.get` default `[]` and selects nothing without raising; a list of
indices goes through the comprehension. -/
def rankAttempt (chunks : List String) (reply : ModelReply) : Option (List String) :=
  match reply with
  | .transportFail => none
  | .content none => none
  | .content (some (.obj fields)) =>
    match jGet fields "relevant_chunk_indices" with
    | none => some []
    | some v =>
      match asIntList v with
      | none => none
      | some idxs => rankedSelect chunks idxs
  | .content (some _) => none

/-- `extract_relevant_passages`.  With at most `num_passages` chunks the
chunk list is returned before any remote call; otherwise the try-block
either succeeds with the ranked selection or raises, and the catch-all
`except` recomputes the chunk list and falls back to its first
`num_passages` elements. -/
def extract_relevant_passages (reply : ModelReply) (document_text : String)
    (num_passages : Nat) : List String :=
  if (chunksOf document_text).length ≤ num_passages then chunksOf document_text
  else
    match rankAttempt (chunksOf document_text) reply with
    | some passages => passages
    | none => (chunksOf document_text).take num_passages

/-! ### Session state (src/app.py, src/utils.py)

`st.session_state` with the seven keys initialized at the top of
`app.py`.  `interaction_mode` holds the mode string (`"ask_anything"` /
`"challenge_me"`) or `None`; a challenge question is the parsed JSON
value the model returned for it; `challenge_answers` is the dict from
question index to the stored answer record. -/

/-- A value of `st.session_state.challenge_answers`: the dict
`{"user_answer": ..., "evaluation": ...}` stored in `app.py`. -/
structure ChallengeAnswer where
  user_answer : String
  evaluation : JValue

structure Session where
  document_content : String
  document_summary : String
  document_name : String
  interaction_mode : Option String
  challenge_questions : List JValue
  challenge_answers : List (Nat × ChallengeAnswer)
  qa_history : List QAEntry

/-- The initial session: the defaults installed by the
`if key not in st.session_state` block at the top of `app.py`. -/
def emptySession : Session :=
  { document_content := ""
    document_summary := ""
    document_name := ""
    interaction_mode := none
    challenge_questions := []
    challenge_answers := []
    qa_history := [] }

/-- `clear_session_state` (src/utils.py): deletes all seven keys; the
top-of-script initializers restore each to its default, so the observable
session is the initial one. -/
def clear_session_state (_ : Session) : Session := emptySession

/-- The body of the new-document branch of the upload handler
(src/app.py): clear the session, record the new name, then try
extraction and summarization.  The extraction outcome and the summary
reply stand for the external collaborators; an exception at either step
jumps to the `except` block (which only displays the error), leaving the
assignments made so far in place. -/
def processNewUpload (fileName : String) (extractResult : Except Unit String)
    (summaryReply : TextReply) (prior : Session) : Session :=
  let s1 := { clear_session_state prior with document_name := fileName }
  match extractResult with
  | .error _ => s1
  | .ok document_text =>
    let s2 := { s1 with document_content := document_text }
    match generate_summary summaryReply document_text with
    | .error _ => s2
    | .ok summary => { s2 with document_summary := summary }

/-- The upload handler: a file whose name equals the stored
`document_name` is not reprocessed at all; a different name runs
`processNewUpload`. -/
def uploadDocument (sess : Session) (fileName : String)
    (extractResult : Except Unit String) (summaryReply : TextReply) : Session :=
  if fileName ≠ sess.document_name then processNewUpload fileName extractResult summaryReply sess
  else sess

/-- The "Get Answer" handler (src/app.py): call `answer_question`, then
build the history dict and append it.  The dict literal
`\x7b"question": ..., "answer": answer_data["answer"], "citation":
answer_data["citation"]\x7d` is evaluated before `.append`, so a
`KeyError` on a missing key (a `MalformedResponse` in the taxonomy)
reaches the handler's `except` with the history untouched, as does any
exception raised by `answer_question` itself. -/
def submitQuestion (sess : Session) (question : String) (reply : ModelReply) :
    Session × Option AIErr :=
  match answer_question reply question sess.document_content sess.qa_history with
  | .error e => (sess, some e)
  | .ok answer_data =>
    match answer_data.getKey "answer" with
    | none => (sess, some .malformedResponse)
    | some a =>
      match answer_data.getKey "citation" with
      | none => (sess, some .malformedResponse)
      | some c =>
        ({ sess with qa_history := sess.qa_history ++ [⟨question, a, c⟩] }, none)

/-! ### Spec-side definition for the passage-ranking claim

For the refinement comparison only: the spec's words "the returned
passages are exactly the chunks at the valid returned indices, in the
order the model returned them", reading "valid" as in range for the
chunk list (`0 ≤ i < length`). -/

/-- Modelled from the spec's words (claim C4), not from the source. -/
def rankedSpecPassages (chunks : List String) (idxs : List Int) : List String :=
  (idxs.filter (fun i => 0 ≤ i && i < (chunks.length : Int))).filterMap
    (fun i => chunks.get? i.toNat)

/-! ### Concrete documents used by witnesses and counterexamples -/

/-- A paragraph of 51 copies of one character: chunk-eligible
(stripped length 51 > 50). -/
def chunkRep (c : Char) : String :=
  String.mk (List.replicate 51 c)

/-- A document with exactly four chunk-eligible paragraphs. -/
def docFour : String :=
  chunkRep 'a' ++ "\n\n" ++ chunkRep 'b' ++ "\n\n" ++ chunkRep 'c' ++ "\n\n" ++ chunkRep 'd'

/-- A document with exactly two chunk-eligible paragraphs. -/
def docTwo : String :=
  chunkRep 'a' ++ "\n\n" ++ chunkRep 'b'

/-- A session whose history holds one entry (the spec's example scenario
after one successful question). -/
def sessionOneQA : Session :=
  { emptySession with
      document_content := "doc text"
      qa_history := [⟨"What is X?", .str "X is Y", .str "para 2"⟩] }

/-- A fully populated session, for the frame-condition witnesses. -/
def sessionLoaded : Session :=
  { document_content := "doc text"
    document_summary := "a summary"
    document_name := "a.txt"
    interaction_mode := some "ask_anything"
    challenge_questions := [JValue.str "cq"]
    challenge_answers := [(0, ⟨"ans", JValue.null⟩)]
    qa_history := [⟨"q1", .str "a1", .str "c1"⟩] }

/-- A conversation history of four entries. -/
def historyFour : List QAEntry :=
  [⟨"q1", .str "a1", .str "c1"⟩, ⟨"q2", .str "a2", .str "c2"⟩,
   ⟨"q3", .str "a3", .str "c3"⟩, ⟨"q4", .str "a4", .str "c4"⟩]

/-! ### Helper lemmas -/

theorem pyIndex_mem {xs : List String} {i : Int} {c : String}
    (h : pyIndex xs i = some c) : c ∈ xs := by
  unfold pyIndex at h
  split at h
  · exact List.get?_mem h
  · split at h
    · cases h
    · exact List.get?_mem h

theorem rankedSelect_subset {chunks : List String} :
    ∀ (idxs : List Int) (res : List String), rankedSelect chunks idxs = some res →
      res ⊆ chunks := by
  intro idxs
  induction idxs with
  | nil =>
    intro res h
    simp only [rankedSelect] at h
    cases h
    intro s hs
    cases hs
  | cons i rest ih =>
    intro res h
    simp only [rankedSelect] at h
    split at h
    · cases hp : pyIndex chunks i with
      | none => rw [hp] at h; cases h
      | some c =>
        rw [hp] at h
        cases hr : rankedSelect chunks rest with
        | none => rw [hr] at h; cases h
        | some cs =>
          rw [hr] at h
          cases h
          exact List.cons_subset.mpr ⟨pyIndex_mem hp, ih cs hr⟩
    · exact ih res h

theorem rankAttempt_subset {chunks : List String} {reply : ModelReply} {res : List String}
    (h : rankAttempt chunks reply = some res) : res ⊆ chunks := by
  unfold rankAttempt at h
  split at h
  · cases h
  · cases h
  · split at h
    · cases h
      intro s hs
      cases hs
    · split at h
      · cases h
      · exact rankedSelect_subset _ _ h
  · cases h

theorem intElems_map_int (idxs : List Int) :
    intElems (idxs.map JValue.int) = some idxs := by
  induction idxs with
  | nil => rfl
  | cons i rest ih => simp [intElems, ih]

theorem rankedSelect_of_nonneg (chunks : List String) :
    ∀ (idxs : List Int), (∀ i ∈ idxs, 0 ≤ i) →
      rankedSelect chunks idxs = some (rankedSpecPassages chunks idxs) := by
  intro idxs
  induction idxs with
  | nil => intro _; rfl
  | cons i rest ih =>
    intro hn
    have hi : 0 ≤ i := hn i (List.mem_cons_self i rest)
    have hrest : ∀ j ∈ rest, 0 ≤ j := fun j hj => hn j (List.mem_cons_of_mem i hj)
    simp only [rankedSelect, rankedSpecPassages, List.filter_cons]
    by_cases hlt : i < (chunks.length : Int)
    · have htn : i.toNat < chunks.length := by omega
      have hget : chunks.get? i.toNat = some (chunks.get ⟨i.toNat, htn⟩) :=
        List.get?_eq_get htn
      rw [if_pos hlt]
      unfold pyIndex
      rw [if_pos hi, hget, ih hrest]
      simp only [rankedSpecPassages]
      have hcond : (decide (0 ≤ i) && decide (i < (chunks.length : Int))) = true := by
        simp [hi, hlt]
      rw [hcond]
      simp [List.filterMap_cons, List.get_eq_getElem, List.getElem?_eq_getElem htn]
    · rw [if_neg hlt, ih hrest]
      have hcond : (decide (0 ≤ i) && decide (i < (chunks.length : Int))) = false := by
        simp [hlt]
      rw [hcond]
      simp [rankedSpecPassages]

/-! ### Claim theorems -/

/-- C5: for every document whose number of chunk-eligible paragraphs is at
most `n`, `extract_relevant_passages` requesting `n` passages returns
exactly those paragraphs (the chunk list, which lists them in original
document order), for every behaviour of the remote model — so without
consulting it. -/
theorem extract_returns_all_chunks_unranked (reply : ModelReply) (doc : String) (n : Nat)
    (h : (chunksOf doc).length ≤ n) :
    extract_relevant_passages reply doc n = chunksOf doc := by
  unfold extract_relevant_passages
  rw [if_pos h]

/-- Witness for C5: a two-chunk document, three passages requested. -/
theorem extract_returns_all_chunks_unranked_witness :
    (chunksOf docTwo).length ≤ 3 ∧
    extract_relevant_passages ModelReply.transportFail docTwo 3 = chunksOf docTwo :=
  ⟨by decide, extract_returns_all_chunks_unranked ModelReply.transportFail docTwo 3 (by decide)⟩

/-- C10: `_extract_txt_text` never reaches the "Unable to decode text
file" branch, whatever the utf-8, utf-16 and cp1252 decoders do on the
byte sequence, because latin-1 decodes every byte sequence. -/
theorem extract_txt_never_decode_failure
    (utf8Dec utf16Dec cp1252Dec : List Byte → Option String) (bs : List Byte) :
    extract_txt_text utf8Dec utf16Dec cp1252Dec bs ≠ Except.error TxtErr.decodeFailure := by
  have key : ∀ (ds : List (List Byte → Option String)), (∃ d ∈ ds, (d bs).isSome) →
      tryDecoders ds bs ≠ Except.error TxtErr.decodeFailure := by
    intro ds
    induction ds with
    | nil =>
      rintro ⟨d, hd, _⟩
      cases hd
    | cons d rest ih =>
      rintro ⟨d', hd', hs⟩
      simp only [tryDecoders]
      cases hdb : d bs with
      | some t =>
        dsimp only
        split <;> simp
      | none =>
        dsimp only
        rcases List.mem_cons.mp hd' with rfl | hd'
        · rw [hdb] at hs
          cases hs
        · exact ih ⟨d', hd', hs⟩
  exact key _ ⟨fun b => some (decodeLatin1 b),
    List.mem_cons_of_mem _ (List.mem_cons_of_mem _ (List.mem_cons_self _ _)), rfl⟩

/-- C9: `validate_document_content` accepts a text exactly when its
stripped length is at least 100 characters and its whitespace-split word
count is at least 50. -/
theorem validate_document_content_iff (text : String) :
    validate_document_content text = true ↔
      100 ≤ (pyStrip text).length ∧ 50 ≤ (pySplitWs text).length := by
  constructor
  · intro hv
    unfold validate_document_content at hv
    split at hv
    · cases hv
    · split at hv
      · cases hv
      · next h1 h2 =>
        simp only [Bool.or_eq_true, decide_eq_true_eq, not_or] at h1
        exact ⟨by omega, by omega⟩
  · intro ⟨ha, hb⟩
    have hne : text.isEmpty = false := by
      cases he : text.isEmpty
      · rfl
      · rw [(String.isEmpty_iff text).mp he] at ha
        simp [pyStrip] at ha
    unfold validate_document_content
    rw [if_neg (by simp [hne]; omega), if_neg (by omega)]

/-- C8 (amended): the summary prompt depends only on the first 8000
characters of the document; a transport failure raises (`ModelError`);
but any reply content — the empty string included — is returned stripped,
so an empty reply yields an empty summary rather than an error. -/
theorem generate_summary_behavior (text s : String) :
    summary_prompt text = summary_prompt (pySliceTo text 8000) ∧
    generate_summary TextReply.transportFail text = Except.error AIErr.modelError ∧
    generate_summary (TextReply.content s) text = Except.ok (pyStrip s) := by
  refine ⟨?_, rfl, rfl⟩
  unfold summary_prompt pySliceTo
  simp [List.take_take]

/-- Counterexample for C8 as stated: on an empty model reply,
`generate_summary` returns the empty summary instead of failing with
`ModelError`. -/
theorem generate_summary_empty_counterexample :
    generate_summary (TextReply.content "") "Some document." = Except.ok "" ∧
    Except.ok "" ≠ (Except.error AIErr.modelError : Except AIErr String) := by
  constructor
  · rfl
  · intro h
    cases h

/-- Counterexample for C1 as stated: after a failed upload the session
does hold partial state.  A failed extraction leaves the new file's name
stored (not cleared); a failed summarization additionally leaves the
extracted document content stored. -/
theorem upload_failure_counterexample :
    (uploadDocument emptySession "a.txt" (.error ()) (.content "s")).document_name = "a.txt" ∧
    "a.txt" ≠ "" ∧
    (uploadDocument emptySession "b.txt" (.ok "contents") .transportFail).document_content
      = "contents" ∧
    "contents" ≠ "" := by
  refine ⟨by decide, by decide, by decide, by decide⟩

/-- C1 (amended): after a failed upload of a new file the derived state
(summary, history, challenge state, mode) is cleared, but the session
retains the new file's name, and — when extraction succeeded and only
summarization failed — also the extracted content. -/
theorem upload_failure_partial_state (sess : Session) (name : String)
    (r : TextReply) (t : String) (h : name ≠ sess.document_name) :
    uploadDocument sess name (.error ()) r = { emptySession with document_name := name } ∧
    uploadDocument sess name (.ok t) .transportFail =
      { emptySession with document_name := name, document_content := t } := by
  constructor
  · unfold uploadDocument
    rw [if_pos h]
    rfl
  · unfold uploadDocument
    rw [if_pos h]
    rfl

/-- Witness for C1 (amended) at a concrete session and file name. -/
theorem upload_failure_partial_state_witness :
    "b.txt" ≠ sessionLoaded.document_name ∧
    uploadDocument sessionLoaded "b.txt" (.error ()) (.content "s") =
      { emptySession with document_name := "b.txt" } :=
  ⟨by decide,
   (upload_failure_partial_state sessionLoaded "b.txt" (.content "s") "t" (by decide)).1⟩

/-- C2: when the model reply to `answer_question` is not valid JSON, or
parses to a value without an `"answer"` or a `"citation"` entry, the
submit-question event fails with `MalformedResponse` and returns the
session unchanged — in particular `qa_history` is unchanged. -/
theorem submitQuestion_malformed_leaves_history (sess : Session) (q : String)
    (reply : ModelReply)
    (h : reply = ModelReply.content none ∨
      ∃ j, reply = ModelReply.content (some j) ∧
        (j.getKey "answer" = none ∨ j.getKey "citation" = none)) :
    submitQuestion sess q reply = (sess, some AIErr.malformedResponse) := by
  rcases h with rfl | ⟨j, rfl, hk⟩
  · rfl
  · unfold submitQuestion answer_question
    dsimp only
    rcases hk with hk | hk
    · rw [hk]
    · cases ha : j.getKey "answer" with
      | none => rfl
      | some a =>
        dsimp only
        rw [hk]

/-- Witness for C2: a session with one history entry (the spec's prior
scenario step), a reply that is not valid JSON. -/
theorem submitQuestion_malformed_leaves_history_witness :
    submitQuestion sessionOneQA "And why?" (ModelReply.content none) =
      (sessionOneQA, some AIErr.malformedResponse) ∧
    sessionOneQA.qa_history.length = 1 :=
  ⟨submitQuestion_malformed_leaves_history sessionOneQA "And why?" (ModelReply.content none)
      (Or.inl rfl),
   by decide⟩

/-- Counterexample for C3 as stated: a document with four chunk-eligible
paragraphs and a model that returns a single valid index make
`extract_relevant_passages` with count 3 return one string, not three. -/
theorem extract_count_counterexample :
    3 < (chunksOf docFour).length ∧
    (extract_relevant_passages
      (ModelReply.content (some (.obj [("relevant_chunk_indices", .arr [.int 0])])))
      docFour 3).length = 1 :=
  ⟨by decide, by decide⟩

/-- C3 (amended): for a document with more than 3 chunk-eligible
paragraphs, `extract_relevant_passages` with count 3 never raises (it is
total, every failure landing in the fallback), and every returned string
is one of the original chunks; on a transport failure it returns exactly
the first 3 chunks — but a model reply listing fewer (or more) valid
indices yields that many strings, not necessarily 3. -/
theorem extract_membership_and_fallback (reply : ModelReply) (doc : String)
    (h : 3 < (chunksOf doc).length) :
    (∀ s ∈ extract_relevant_passages reply doc 3, s ∈ chunksOf doc) ∧
    extract_relevant_passages ModelReply.transportFail doc 3 = (chunksOf doc).take 3 ∧
    (extract_relevant_passages ModelReply.transportFail doc 3).length = 3 := by
  have hno : ¬ (chunksOf doc).length ≤ 3 := by omega
  have hfall : extract_relevant_passages ModelReply.transportFail doc 3
      = (chunksOf doc).take 3 := by
    unfold extract_relevant_passages
    rw [if_neg hno]
    rfl
  refine ⟨?_, hfall, ?_⟩
  · intro s hs
    unfold extract_relevant_passages at hs
    rw [if_neg hno] at hs
    cases hr : rankAttempt (chunksOf doc) reply with
    | some passages =>
      rw [hr] at hs
      exact rankAttempt_subset hr hs
    | none =>
      rw [hr] at hs
      exact List.take_subset _ _ hs
  · rw [hfall, List.length_take]
    omega

/-- Witness for C3 (amended) at the four-paragraph document. -/
theorem extract_membership_and_fallback_witness :
    3 < (chunksOf docFour).length ∧
    extract_relevant_passages ModelReply.transportFail docFour 3 = (chunksOf docFour).take 3 :=
  ⟨by decide,
   (extract_membership_and_fallback ModelReply.transportFail docFour (by decide)).2.1⟩

/-- Counterexample for C4 as stated: the index `-1` is out of range for
the chunk list, yet it is not dropped — Python's negative indexing maps
it to the last chunk, so the result differs from "the chunks at the valid
returned indices". -/
theorem ranked_negative_index_counterexample :
    3 < (chunksOf docFour).length ∧
    rankedSpecPassages (chunksOf docFour) [-1] = [] ∧
    extract_relevant_passages
        (ModelReply.content (some (.obj [("relevant_chunk_indices", .arr [.int (-1)])])))
        docFour 3 = [chunkRep 'd'] ∧
    ([chunkRep 'd'] : List String) ≠ [] :=
  ⟨by decide, by decide, by decide, by decide⟩

/-- C4 (amended): in the ranked path, when every index the model returns
is non-negative, indices `≥ len(chunks)` are silently dropped and the
result is exactly the chunks at the remaining indices, in the order the
model returned them (negative indices are instead resolved by Python
indexing, or — below `-len(chunks)` — abort ranking into the fallback). -/
theorem ranked_nonneg_indices_spec (doc : String) (idxs : List Int)
    (h : 3 < (chunksOf doc).length) (hn : ∀ i ∈ idxs, 0 ≤ i) :
    extract_relevant_passages
        (ModelReply.content (some (.obj [("relevant_chunk_indices", .arr (idxs.map JValue.int))])))
        doc 3 =
      rankedSpecPassages (chunksOf doc) idxs := by
  have hno : ¬ (chunksOf doc).length ≤ 3 := by omega
  have hatt : rankAttempt (chunksOf doc)
      (ModelReply.content (some (.obj [("relevant_chunk_indices", .arr (idxs.map JValue.int))])))
      = some (rankedSpecPassages (chunksOf doc) idxs) := by
    simp only [rankAttempt, jGet, asIntList, ite_true]
    rw [intElems_map_int]
    exact rankedSelect_of_nonneg (chunksOf doc) idxs hn
  unfold extract_relevant_passages
  rw [if_neg hno, hatt]

/-- Witness for C4 (amended): indices `[0, 7, 2]` against the
four-paragraph document (7 is dropped, 0 and 2 map to their chunks in
that order). -/
theorem ranked_nonneg_indices_spec_witness :
    3 < (chunksOf docFour).length ∧
    extract_relevant_passages
        (ModelReply.content (some (.obj [("relevant_chunk_indices",
          .arr ([0, 7, 2].map JValue.int))]))) docFour 3 =
      rankedSpecPassages (chunksOf docFour) [0, 7, 2] :=
  ⟨by decide, ranked_nonneg_indices_spec docFour [0, 7, 2] (by decide) (by decide)⟩

/-- C6: re-uploading a file with the current document's name leaves the
whole session (its history, challenge state and summary included)
unchanged; a different name produces a session computed from the cleared
initial state — so `qa_history`, `challenge_questions` and
`challenge_answers` end empty and the prior summary cannot influence the
result. -/
theorem upload_frame_conditions (sess : Session) (er : Except Unit String) (sr : TextReply) :
    uploadDocument sess sess.document_name er sr = sess ∧
    ∀ name, name ≠ sess.document_name →
      uploadDocument sess name er sr = processNewUpload name er sr emptySession ∧
      (uploadDocument sess name er sr).qa_history = [] ∧
      (uploadDocument sess name er sr).challenge_questions = [] ∧
      (uploadDocument sess name er sr).challenge_answers = [] := by
  constructor
  · unfold uploadDocument
    rw [if_neg (by simp)]
  · intro name hn
    have hu : uploadDocument sess name er sr = processNewUpload name er sr sess := by
      unfold uploadDocument
      rw [if_pos hn]
    have hind : processNewUpload name er sr sess = processNewUpload name er sr emptySession := rfl
    refine ⟨hu.trans hind, ?_, ?_, ?_⟩ <;>
      rw [hu] <;> cases er <;> cases sr <;>
        simp [processNewUpload, clear_session_state, generate_summary, emptySession]

/-- Witness for C6 at a populated session and a different file name. -/
theorem upload_frame_conditions_witness :
    "b.txt" ≠ sessionLoaded.document_name ∧
    (uploadDocument sessionLoaded "b.txt" (.ok "T") (.content "S")).qa_history = [] :=
  ⟨by decide,
   ((upload_frame_conditions sessionLoaded (.ok "T") (.content "S")).2 "b.txt" (by decide)).2.1⟩

/-- Context depends only on the last three history entries. -/
theorem contextOf_eq_drop (history : List QAEntry) (h : 3 ≤ history.length) :
    contextOf history = contextOf (history.drop (history.length - 3)) := by
  have hlen : (history.drop (history.length - 3)).length = 3 := by
    rw [List.length_drop]
    omega
  have h1 : history.isEmpty = false := by
    cases history with
    | nil => simp at h
    | cons a t => rfl
  have h2 : (history.drop (history.length - 3)).isEmpty = false := by
    cases hd : history.drop (history.length - 3) with
    | nil => rw [hd] at hlen; cases hlen
    | cons a t => rfl
  unfold contextOf
  rw [h1, h2, hlen]
  simp

/-- C7: for a history of at least 3 entries, the answer prompt equals the
prompt built from just the last 3 entries (so earlier entries do not
appear in it), and the context block is exactly the header followed by
the `Q:`/`A:` rendering of those last 3 entries in order. -/
theorem answer_prompt_last_three (q d : String) (history : List QAEntry)
    (h : 3 ≤ history.length) :
    answer_prompt q d history = answer_prompt q d (history.drop (history.length - 3)) ∧
    contextOf history =
      (history.drop (history.length - 3)).foldl
        (fun acc qa => acc ++ "Q: " ++ qa.question ++ "\nA: " ++ pyStr qa.answer ++ "\n\n")
        "Previous conversation:\n" := by
  have h1 : history.isEmpty = false := by
    cases history with
    | nil => simp at h
    | cons a t => rfl
  constructor
  · unfold answer_prompt
    rw [contextOf_eq_drop history h]
  · unfold contextOf
    rw [h1]
    simp

/-- Witness for C7 at a four-entry history. -/
theorem answer_prompt_last_three_witness :
    3 ≤ historyFour.length ∧
    answer_prompt "Q" "D" historyFour =
      answer_prompt "Q" "D" (historyFour.drop (historyFour.length - 3)) :=
  ⟨by decide, (answer_prompt_last_three "Q" "D" historyFour (by decide)).1⟩
